import Mathlib

/-
Verification of the Open Horizon AI tool pipeline (brainstorming, partner
discovery, application-section drafting) against its specification.

The Python source is shallowly embedded: strings are Lean strings, Python
str operations (split, strip, lower, `in`, replace) are modelled as
executable functions on lists of characters, the pydantic data model is
modelled as Lean structures with explicit validation in Except, and the
orchestrator's try/finally resource handling is modelled as explicit state
passing over a dependency-context state.
-/

set_option maxRecDepth 8000

/-- Whitespace test used by Python str.split / str.strip (ASCII range). -/
def isWS (c : Char) : Bool := c.isWhitespace

/-- Accumulator worker for Python str.split(): collects maximal runs of
non-whitespace characters; the accumulator holds the current run reversed. -/
def splitAux : List Char → List Char → List (List Char)
  | [], acc => if acc.isEmpty then [] else [acc.reverse]
  | c :: cs, acc =>
    if isWS c then
      if acc.isEmpty then splitAux cs [] else acc.reverse :: splitAux cs []
    else splitAux cs (c :: acc)

/-- Python s.split() on a list of characters. -/
def pySplitL (s : List Char) : List (List Char) := splitAux s []

/-- Python s.split() on a string. -/
def pySplit (s : String) : List (List Char) := pySplitL s.data

/-- Python len(s.split()): the whitespace-token count of a string. -/
def pyWordCount (s : String) : Nat := (pySplit s).length

/-- Python " ".join(words): interleave a single space between words. -/
def joinSpaceL : List (List Char) → List Char
  | [] => []
  | w :: ws => w ++ (match ws with | [] => [] | _ :: _ => ' ' :: joinSpaceL ws)

/-- Token-counting automaton: counts maximal non-whitespace runs, threading
a flag that records whether the scan is currently inside a word. -/
def wcAux : List Char → Bool → Nat
  | [], _ => 0
  | c :: cs, inWord =>
    if isWS c then wcAux cs false
    else (if inWord then 0 else 1) + wcAux cs true

/-- Python s.lower(), character-wise (faithful on the ASCII range, which is
all the repository's template text uses). -/
def toLowerStr (s : String) : String := String.mk (s.data.map Char.toLower)

/-- Python `pat in s` substring test on lists of characters. -/
def containsL (pat : List Char) : List Char → Bool
  | [] => pat.isEmpty
  | c :: cs => pat.isPrefixOf (c :: cs) || containsL pat cs

/-- Python `pat in s` substring test on strings. -/
def pyContains (s pat : String) : Bool := containsL pat.data s.data

/-- Python s.replace(p, r) on lists of characters: left-to-right,
non-overlapping replacement.  The p = [] case (never used by the embedded
code) is mapped to the identity to keep the function total. -/
def pyReplaceL (p r : List Char) : List Char → List Char
  | [] => []
  | c :: cs =>
    if h : p ≠ [] ∧ p.isPrefixOf (c :: cs) then
      r ++ pyReplaceL p r (List.drop (p.length - 1) cs)
    else
      c :: pyReplaceL p r cs
termination_by s => s.length
decreasing_by
  · simp only [List.length_cons, List.length_drop]
    omega
  · simp only [List.length_cons]
    omega

/-- Python s.replace(pat, rep) on strings. -/
def pyReplace (s pat rep : String) : String :=
  String.mk (pyReplaceL pat.data rep.data s.data)

/-- Python s.strip() on a list of characters. -/
def pyStripL (s : List Char) : List Char :=
  ((s.dropWhile fun c => isWS c).reverse.dropWhile fun c => isWS c).reverse

/-- Python s.strip() on strings. -/
def pyStrip (s : String) : String := String.mk (pyStripL s.data)

/-- Unfolding: replacement of the empty list. -/
theorem pyReplaceL_nil (p r : List Char) : pyReplaceL p r [] = [] := by
  rw [pyReplaceL]

/-- Unfolding: replacement when the pattern matches at the head. -/
theorem pyReplaceL_cons_pos (p r : List Char) (c : Char) (cs : List Char)
    (hp : p ≠ []) (hpre : p.isPrefixOf (c :: cs)) :
    pyReplaceL p r (c :: cs) = r ++ pyReplaceL p r (List.drop (p.length - 1) cs) := by
  rw [pyReplaceL]
  simp [hp, hpre]

/-- Unfolding: replacement when the pattern does not match at the head. -/
theorem pyReplaceL_cons_neg (p r : List Char) (c : Char) (cs : List Char)
    (h : ¬(p ≠ [] ∧ p.isPrefixOf (c :: cs))) :
    pyReplaceL p r (c :: cs) = c :: pyReplaceL p r cs := by
  rw [pyReplaceL]
  simp only [h, dite_false]

/-- Counting tokens of a prefix made of non-whitespace characters: the
prefix merges into the first token of the remainder. -/
theorem wcAux_append_word (w x : List Char) (b : Bool)
    (hw : ∀ c ∈ w, isWS c = false) :
    wcAux (w ++ x) b = if w.isEmpty then wcAux x b else (if b then 0 else 1) + wcAux x true := by
  induction w generalizing b with
  | nil => simp
  | cons c w ih =>
    have hc : isWS c = false := hw c (List.mem_cons_self c w)
    have hw2 : ∀ d ∈ w, isWS d = false := fun d hd => hw d (List.mem_cons_of_mem c hd)
    simp only [List.cons_append, wcAux, hc, Bool.false_eq_true, if_false,
      List.isEmpty_cons, List.append_eq]
    rw [ih true hw2]
    cases hwe : w.isEmpty <;> simp

/-- A list of non-whitespace characters scanned from inside a word adds no
new tokens. -/
theorem wcAux_wsfree_true (t : List Char) (ht : ∀ c ∈ t, isWS c = false) :
    wcAux t true = 0 := by
  induction t with
  | nil => rfl
  | cons c cs ih =>
    have hc : isWS c = false := ht c (List.mem_cons_self c cs)
    simp only [wcAux, hc, Bool.false_eq_true, if_false, if_true, Nat.zero_add]
    exact ih fun d hd => ht d (List.mem_cons_of_mem c hd)

/-- Token count of space-joined nonempty whitespace-free words, followed by
a whitespace-free tail glued onto the last word, is the number of words. -/
theorem wcAux_join (ws : List (List Char)) (t : List Char) (hne : ws ≠ [])
    (hws : ∀ w ∈ ws, w ≠ [] ∧ ∀ c ∈ w, isWS c = false)
    (ht : ∀ c ∈ t, isWS c = false) :
    wcAux (joinSpaceL ws ++ t) false = ws.length := by
  induction ws with
  | nil => exact absurd rfl hne
  | cons w ws ih =>
    rcases hws w (List.mem_cons_self w ws) with ⟨hwne, hwfree⟩
    cases ws with
    | nil =>
      simp only [joinSpaceL, List.append_nil]
      rw [wcAux_append_word w t false hwfree]
      have : w.isEmpty = false := by
        cases w with
        | nil => exact absurd rfl hwne
        | cons a l => rfl
      rw [this]
      simp [wcAux_wsfree_true t ht]
    | cons w2 ws2 =>
      have hjoin : joinSpaceL (w :: w2 :: ws2) = w ++ (' ' :: joinSpaceL (w2 :: ws2)) := rfl
      rw [hjoin, List.append_assoc, wcAux_append_word w _ false hwfree]
      have : w.isEmpty = false := by
        cases w with
        | nil => exact absurd rfl hwne
        | cons a l => rfl
      rw [this]
      have hsp : isWS ' ' = true := by decide
      simp only [List.cons_append, wcAux, hsp, if_true, Bool.false_eq_true, if_false,
        List.append_eq]
      rw [ih (by simp) (fun v hv => hws v (List.mem_cons_of_mem w hv))]
      simp only [List.length_cons]
      omega

/-- Length of the split result, expressed through the counting automaton. -/
theorem splitAux_length (s : List Char) : ∀ acc : List Char,
    (splitAux s acc).length = wcAux s (!acc.isEmpty) + (if acc.isEmpty then 0 else 1) := by
  induction s with
  | nil =>
    intro acc
    cases h : acc.isEmpty <;> simp [splitAux, wcAux, h]
  | cons c cs ih =>
    intro acc
    cases hc : isWS c
    · cases h : acc.isEmpty <;>
        · simp [splitAux, wcAux, hc, h, ih (c :: acc), List.isEmpty_cons]
          try omega
    · cases h : acc.isEmpty <;>
        · simp [splitAux, wcAux, hc, h, ih ([] : List Char)]
          try omega

/-- Word count equals the automaton run from the outside-a-word state. -/
theorem pyWordCount_eq_wc (s : String) : pyWordCount s = wcAux s.data false := by
  have h := splitAux_length s.data []
  simpa [pyWordCount, pySplit, pySplitL] using h

/-- Every word produced by the splitter is nonempty and whitespace-free. -/
theorem splitAux_words (s : List Char) : ∀ acc : List Char,
    (∀ c ∈ acc, isWS c = false) →
    ∀ w ∈ splitAux s acc, w ≠ [] ∧ ∀ c ∈ w, isWS c = false := by
  induction s with
  | nil =>
    intro acc hacc w hw
    cases h : acc.isEmpty
    · simp only [splitAux, h, Bool.false_eq_true, if_false, List.mem_singleton] at hw
      subst hw
      refine ⟨?_, ?_⟩
      · simp only [ne_eq, List.reverse_eq_nil_iff]
        intro hnil
        rw [hnil] at h
        simp at h
      · intro c hc
        exact hacc c (List.mem_reverse.mp hc)
    · simp [splitAux, h] at hw
  | cons c cs ih =>
    intro acc hacc w hw
    cases hc : isWS c
    · have hacc2 : ∀ d ∈ c :: acc, isWS d = false := by
        intro d hd
        rcases List.mem_cons.mp hd with h1 | h2
        · subst h1; exact hc
        · exact hacc d h2
      simp only [splitAux, hc, Bool.false_eq_true, if_false] at hw
      exact ih (c :: acc) hacc2 w hw
    · cases h : acc.isEmpty
      · simp only [splitAux, hc, if_true, h, Bool.false_eq_true, if_false,
          List.mem_cons] at hw
        rcases hw with hw | hw
        · subst hw
          refine ⟨?_, ?_⟩
          · simp only [ne_eq, List.reverse_eq_nil_iff]
            intro hnil
            rw [hnil] at h
            simp at h
          · intro d hd
            exact hacc d (List.mem_reverse.mp hd)
        · exact ih [] (by simp) w hw
      · simp only [splitAux, hc, if_true, h, if_true] at hw
        exact ih [] (by simp) w hw

/-- Decomposition of a list along a matching prefix. -/
theorem prefix_decomp {p s : List Char} (h : p.isPrefixOf s) :
    s = p ++ List.drop p.length s := by
  have hpre : p <+: s := List.isPrefixOf_iff_prefix.mp h
  have htake : p = List.take p.length s := List.prefix_iff_eq_take.mp hpre
  conv_lhs => rw [← List.take_append_drop p.length s]
  rw [← htake]

/-- Replacing a nonempty whitespace-free pattern by a nonempty
whitespace-free replacement preserves the token count, from any state. -/
theorem wcAux_replace (p r : List Char) (hp : p ≠ [])
    (hpw : ∀ c ∈ p, isWS c = false) (hr : r ≠ [])
    (hrw : ∀ c ∈ r, isWS c = false) :
    ∀ (s : List Char) (b : Bool), wcAux (pyReplaceL p r s) b = wcAux s b := by
  have hpe : p.isEmpty = false := by
    cases p with
    | nil => exact absurd rfl hp
    | cons a l => rfl
  have hre : r.isEmpty = false := by
    cases r with
    | nil => exact absurd rfl hr
    | cons a l => rfl
  have main : ∀ (n : Nat) (s : List Char), s.length ≤ n → ∀ b : Bool,
      wcAux (pyReplaceL p r s) b = wcAux s b := by
    intro n
    induction n with
    | zero =>
      intro s hs b
      have hsnil : s = [] := List.eq_nil_of_length_eq_zero (Nat.le_zero.mp hs)
      subst hsnil
      rw [pyReplaceL_nil]
    | succ n ih =>
      intro s hs b
      cases s with
      | nil => rw [pyReplaceL_nil]
      | cons c cs =>
        by_cases hpre : p.isPrefixOf (c :: cs)
        · have hdec : c :: cs = p ++ List.drop p.length (c :: cs) := prefix_decomp hpre
          have hdrop : List.drop p.length (c :: cs) = List.drop (p.length - 1) cs := by
            cases hl : p.length with
            | zero =>
              exact absurd (List.eq_nil_of_length_eq_zero hl) hp
            | succ m => simp [List.drop]
          rw [pyReplaceL_cons_pos p r c cs hp hpre,
            wcAux_append_word r _ b hrw, hre]
          conv_rhs => rw [hdec, wcAux_append_word p _ b hpw, hpe]
          simp only [Bool.false_eq_true, if_false]
          have hlen : (List.drop (p.length - 1) cs).length ≤ n := by
            have h1 : (List.drop (p.length - 1) cs).length = cs.length - (p.length - 1) :=
              List.length_drop _ _
            have h2 : cs.length + 1 ≤ n + 1 := by simpa using hs
            omega
          rw [ih _ hlen true, ← hdrop]
        · rw [pyReplaceL_cons_neg p r c cs (by intro hcon; exact hpre hcon.2)]
          have hcslen : cs.length ≤ n := by
            simp only [List.length_cons] at hs
            omega
          cases hc : isWS c
          · simp only [wcAux, hc, Bool.false_eq_true, if_false]
            rw [ih cs hcslen true]
          · simp only [wcAux, hc, if_true]
            exact ih cs hcslen false
  intro s b
  exact main s.length s (Nat.le_refl _) b

/-
Data model embedded from src/models.py.  Enum classes become inductives
carrying their string values; pydantic models become structures.  Required
fields without defaults (such as Partner.id) are validated explicitly at
construction, mirroring pydantic raising ValidationError when a required
field is missing from the keyword arguments.
-/

/-- Erasmus+ focus areas (enum ErasmusFocusArea in src/models.py). -/
inductive ErasmusFocusArea where
  | DIGITAL_TRANSFORMATION
  | GREEN_TRANSITION
  | INCLUSION_DIVERSITY
  | PARTICIPATION
  | EUROPEAN_VALUES
  | INNOVATION
deriving DecidableEq, Repr

/-- String value of each ErasmusFocusArea member. -/
def ErasmusFocusArea.value : ErasmusFocusArea → String
  | .DIGITAL_TRANSFORMATION => "Digital Transformation"
  | .GREEN_TRANSITION => "Green Transition"
  | .INCLUSION_DIVERSITY => "Inclusion and Diversity"
  | .PARTICIPATION => "Participation"
  | .EUROPEAN_VALUES => "European Values"
  | .INNOVATION => "Innovation"

/-- Organization types (enum OrganizationType in src/models.py). -/
inductive OrganizationType where
  | NGO
  | PUBLIC
  | SCHOOL
  | HEI
  | COMPANY
  | OTHER
deriving DecidableEq, Repr

/-- Contact information (ContactInfo in src/models.py); all fields optional. -/
structure ContactInfo where
  email : Option String := none
  website : Option String := none
  phone : Option String := none
deriving DecidableEq, Repr

/-- Partner organization (Partner in src/models.py).  The id field has no
default in the pydantic model, so it is required at construction. -/
structure Partner where
  id : String
  name : String
  country : String
  organization_type : OrganizationType
  expertise_areas : List String
  contact_info : ContactInfo
  erasmus_code : Option String
  compatibility_score : Option Nat
  partnership_rationale : Option String
deriving DecidableEq, Repr

/-- Keyword-argument bundle for a Partner construction, mirroring the plain
dicts in the mock partner pool of src/tools.py.  The id key is optional
here because the mock dicts simply do not supply it. -/
structure PartnerInput where
  id : Option String := none
  name : String
  country : String
  organization_type : OrganizationType
  expertise_areas : List String
  contact_info : ContactInfo
  erasmus_code : Option String := none
  compatibility_score : Option Nat := none
  partnership_rationale : Option String := none
deriving DecidableEq, Repr

/-- Pydantic-style validating construction of a Partner: a missing required
id raises ValidationError; compatibility_score must lie in [1, 10]. -/
def Partner.validate (d : PartnerInput) : Except String Partner :=
  match d.id with
  | none => .error "1 validation error for Partner: id field required"
  | some i =>
    match d.compatibility_score with
    | some v =>
      if 1 ≤ v ∧ v ≤ 10 then
        .ok { id := i, name := d.name, country := d.country,
              organization_type := d.organization_type,
              expertise_areas := d.expertise_areas,
              contact_info := d.contact_info,
              erasmus_code := d.erasmus_code,
              compatibility_score := some v,
              partnership_rationale := d.partnership_rationale }
      else .error "1 validation error for Partner: compatibility_score out of range"
    | none =>
      .ok { id := i, name := d.name, country := d.country,
            organization_type := d.organization_type,
            expertise_areas := d.expertise_areas,
            contact_info := d.contact_info,
            erasmus_code := d.erasmus_code,
            compatibility_score := none,
            partnership_rationale := d.partnership_rationale }

/-- Project concept produced by brainstorming (the plain dicts built in
brainstorm_project_ideas of src/tools.py). -/
structure ProjectConcept where
  title : String
  focus_area : ErasmusFocusArea
  target_audience : String
  innovation_angle : String
  feasibility_score : Nat
  rationale : String
deriving DecidableEq, Repr

/-- Result dict of brainstorm_project_ideas. -/
structure BrainstormResult where
  success : Bool
  project_concepts : List ProjectConcept
  next_steps : List String
  error : Option String
deriving DecidableEq, Repr

/-- search_metadata dict of discover_erasmus_partners.  The failure branch
builds the dict without a search_focus key, modelled by none. -/
structure SearchMetadata where
  total_found : Nat
  countries_covered : List String
  search_focus : Option String
deriving DecidableEq, Repr

/-- Result dict of discover_erasmus_partners. -/
structure SearchResult where
  success : Bool
  potential_partners : List Partner
  search_metadata : SearchMetadata
  error : Option String
deriving DecidableEq, Repr

/-- compliance_details dict of generate_application_section. -/
structure ComplianceDetails where
  missing_elements : List String
  strength_areas : List String
  improvement_suggestions : List String
deriving DecidableEq, Repr

/-- generated_content dict of generate_application_section. -/
structure GeneratedContent where
  section_name : String
  content : String
  word_count : Nat
  compliance_status : Bool
  compliance_details : ComplianceDetails
deriving DecidableEq, Repr

/-- One alternative version dict of generate_application_section. -/
structure AlternativeVersion where
  content : String
  focus : String
  word_count : Nat
deriving DecidableEq, Repr

/-- Result dict of generate_application_section. -/
structure SectionResult where
  success : Bool
  generated_content : Option GeneratedContent
  alternative_versions : List AlternativeVersion
  error : Option String
deriving DecidableEq, Repr

/-- The keys of project_context consulted by generate_application_section
(title, focus_area, target_audience); a missing key selects the fixed
default.  Values are modelled as strings (the code calls .lower() on the
focus_area and target_audience values). -/
structure ProjectContext where
  title : Option String := none
  focus_area : Option String := none
  target_audience : Option String := none
deriving DecidableEq, Repr

/-
Embeddings of the three tool functions of src/tools.py.  Best-effort
persistence (the Supabase writes, each wrapped in try/except pass) has no
effect on the returned result and is omitted; everything that reaches the
return value is embedded.
-/

/-- Condition guarding the digital concept in brainstorm_project_ideas:
"digital" in initial_concept.lower() or focus_preference == "Digital Transformation". -/
def digitalCond (initial_concept : String) (focus_preference : Option String) : Bool :=
  pyContains (toLowerStr initial_concept) "digital" ||
    (focus_preference == some "Digital Transformation")

/-- Condition guarding the green concept in brainstorm_project_ideas:
"green" in initial_concept.lower() or "environment" in initial_concept.lower().
The focus_preference argument is not consulted by this branch. -/
def greenCond (initial_concept : String) : Bool :=
  pyContains (toLowerStr initial_concept) "green" ||
    pyContains (toLowerStr initial_concept) "environment"

/-- Condition guarding the inclusion concept in brainstorm_project_ideas:
"inclusion" in initial_concept.lower() or "diversity" in initial_concept.lower().
The focus_preference argument is not consulted by this branch. -/
def inclusionCond (initial_concept : String) : Bool :=
  pyContains (toLowerStr initial_concept) "inclusion" ||
    pyContains (toLowerStr initial_concept) "diversity"

/-- The default concept appended when no keyword family matched. -/
def default_concept (initial_concept : String) : ProjectConcept :=
  { title := "European Youth Network: " ++ initial_concept,
    focus_area := .PARTICIPATION,
    target_audience := "Young people 16-25 interested in civic engagement",
    innovation_angle := "Cross-border collaboration with local community projects",
    feasibility_score := 6,
    rationale := "Broad appeal, established methodologies, moderate complexity" }

/-- Embedding of brainstorm_project_ideas (src/tools.py).  The Supabase
update is best-effort and swallowed; the returned dict is as in the code. -/
def brainstorm_project_ideas (initial_concept : String)
    (focus_preference : Option String) (organization_context : String) :
    BrainstormResult :=
  let concepts : List ProjectConcept :=
    (if digitalCond initial_concept focus_preference then
      [{ title := "Digital Skills for " ++ organization_context ++ ": " ++ initial_concept,
         focus_area := .DIGITAL_TRANSFORMATION,
         target_audience := "Young adults 18-30, unemployed or with low digital skills",
         innovation_angle := "AI-powered personalized learning paths with peer mentoring",
         feasibility_score := 8,
         rationale := "Strong EU priority, clear target group, proven methodologies available" }]
    else []) ++
    (if greenCond initial_concept then
      [{ title := "Green Transition Champions: " ++ initial_concept,
         focus_area := .GREEN_TRANSITION,
         target_audience := "Youth organizations and environmental activists",
         innovation_angle := "Gamified environmental action with cross-border challenges",
         feasibility_score := 9,
         rationale := "High EU priority, engaging methodology, measurable outcomes" }]
    else []) ++
    (if inclusionCond initial_concept then
      [{ title := "Inclusive Europe: " ++ initial_concept,
         focus_area := .INCLUSION_DIVERSITY,
         target_audience := "Marginalized youth and support organizations",
         innovation_angle := "Peer-to-peer support networks with digital storytelling",
         feasibility_score := 7,
         rationale := "Critical EU priority, requires sensitive approach, strong impact potential" }]
    else [])
  let concepts := if concepts.isEmpty then [default_concept initial_concept] else concepts
  { success := true,
    project_concepts := concepts,
    next_steps :=
      ["Select the most promising concept for further development",
       "Identify potential European partner organizations",
       "Define specific learning outcomes and impact metrics",
       "Estimate budget and timeline requirements"],
    error := none }

/-- The fixed in-memory candidate pool of discover_erasmus_partners
(src/tools.py).  None of the four dicts carries an id key. -/
def mock_partners : List PartnerInput :=
  [{ name := "Digital Youth Foundation", country := "Germany",
     organization_type := .NGO,
     expertise_areas := ["Digital Skills", "Youth Work", "Innovation"],
     contact_info := { email := some "contact@digitalyouth.de",
                       website := some "https://digitalyouth.de" },
     erasmus_code := some "DE-YOUTH-001",
     compatibility_score := some 9,
     partnership_rationale :=
       some "Strong digital expertise and proven track record in youth projects" },
   { name := "Green Action Network", country := "Netherlands",
     organization_type := .NGO,
     expertise_areas := ["Environmental Education", "Sustainability", "Community Engagement"],
     contact_info := { email := some "info@greenaction.nl",
                       website := some "https://greenaction.nl" },
     erasmus_code := some "NL-GREEN-002",
     compatibility_score := some 8,
     partnership_rationale :=
       some "Excellent environmental focus with European-wide networks" },
   { name := "Inclusion Works", country := "Spain",
     organization_type := .PUBLIC,
     expertise_areas := ["Social Inclusion", "Diversity Training", "Youth Support"],
     contact_info := { email := some "hello@inclusionworks.es",
                       website := some "https://inclusionworks.es" },
     erasmus_code := some "ES-INCL-003",
     compatibility_score := some 7,
     partnership_rationale :=
       some "Specialized in inclusion work with vulnerable groups" },
   { name := "Innovation Academy", country := "Finland",
     organization_type := .HEI,
     expertise_areas := ["Innovation", "Entrepreneurship", "Technology"],
     contact_info := { email := some "partnerships@innovacademy.fi",
                       website := some "https://innovacademy.fi" },
     erasmus_code := some "FI-INNOV-004",
     compatibility_score := some 8,
     partnership_rationale :=
       some "Academic excellence in innovation and strong research capabilities" }]

/-- One loop iteration of the partner filter in discover_erasmus_partners:
validate the candidate (pydantic construction), apply the country filter,
the expertise filter, and the focus-match score boost, in source order.
The compatibility boost on a missing score would raise, mirrored by error. -/
def partnerStep (project_focus : String) (required_countries : Option (List String))
    (expertise_areas : Option (List String)) (acc : List Partner)
    (d : PartnerInput) : Except String (List Partner) := do
  let p ← Partner.validate d
  let skipCountry : Bool :=
    match required_countries with
    | some (c :: l) => !((c :: l).contains p.country)
    | _ => false
  if skipCountry then
    return acc
  let skipExpertise : Bool :=
    match expertise_areas with
    | some (a :: l) =>
      !((a :: l).any fun area =>
        (p.expertise_areas.map toLowerStr).contains (toLowerStr area))
    | _ => false
  if skipExpertise then
    return acc
  let p ←
    if (p.expertise_areas.map toLowerStr).contains (toLowerStr project_focus) then
      match p.compatibility_score with
      | some v => pure { p with compatibility_score := some (min 10 (v + 1)) }
      | none => Except.error "unsupported operand types for min on NoneType"
    else
      pure p
  return acc ++ [p]

/-- Embedding of discover_erasmus_partners (src/tools.py): iterate the mock
pool, validating and filtering; any exception (notably the ValidationError
from the missing Partner.id) is caught by the surrounding try/except and
converted into the failure dict. -/
def discover_erasmus_partners (project_focus : String)
    (required_countries : Option (List String))
    (expertise_areas : Option (List String)) : SearchResult :=
  match mock_partners.foldlM
      (partnerStep project_focus required_countries expertise_areas) [] with
  | .ok filtered =>
    { success := true,
      potential_partners := filtered,
      search_metadata :=
        { total_found := filtered.length,
          countries_covered := (filtered.map fun p => p.country).eraseDups,
          search_focus := some project_focus },
      error := none }
  | .error e =>
    { success := false,
      potential_partners := [],
      search_metadata :=
        { total_found := 0, countries_covered := [], search_focus := none },
      error := some ("Partner search failed: " ++ e) }

/-- The "Project Description" f-string template of generate_application_section,
with interpolations as explicit arguments (focus_area and target_audience
already lowered by the caller) and the trailing .strip() applied. -/
def templateProjectDescription (project_title fa aud : String) : String :=
  pyStrip ("\n" ++ project_title ++ " addresses the critical need for " ++ fa ++
    " development among " ++ aud ++ " across Europe. \n\nOur project recognizes that traditional approaches to youth engagement often fail to capture the diverse needs and learning styles of today\x27s generation. Through innovative methodologies and cross-border collaboration, we will create sustainable pathways for personal and professional development.\n\nThe project brings together partners from multiple European countries to share best practices, develop new approaches, and create lasting networks that extend beyond the project timeline. Our consortium combines grassroots experience with academic rigor, ensuring both practical relevance and evidence-based outcomes.\n\nKey innovation elements include digital tools integration, peer-to-peer learning methodologies, and community-based action projects that create real-world impact while developing participants\x27 competencies.\n")

/-- The "Methodology" template of generate_application_section. -/
def templateMethodology (fa : String) : String :=
  pyStrip ("\nOur methodology is built on three pillars: participatory learning, digital innovation, and cross-cultural exchange.\n\n**Participatory Learning**: We employ non-formal education techniques that place participants at the center of their learning journey. Through workshops, peer mentoring, and collaborative projects, participants develop both hard and soft skills while building confidence and intercultural competence.\n\n**Digital Innovation**: Leveraging technology to enhance accessibility and engagement, we integrate digital tools that support personalized learning paths and enable virtual collaboration between participants from different countries.\n\n**Cross-Cultural Exchange**: Physical and virtual mobility opportunities allow participants to experience different cultural approaches to " ++
    fa ++ ", fostering European identity and global citizenship.\n\nQuality assurance is ensured through regular evaluation cycles, participant feedback integration, and external expert review at key project milestones.\n")

/-- The "Impact" template of generate_application_section. -/
def templateImpact (project_title fa : String) : String :=
  pyStrip ("\n" ++ project_title ++ " will create multi-level impact across individual, organizational, and systemic dimensions.\n\n**Individual Impact**: Participants will develop enhanced competencies in " ++ fa ++
    ", increased cultural awareness, and stronger European identity. We anticipate that 85% of participants will report increased confidence and 70% will pursue further education or employment opportunities directly related to project themes.\n\n**Organizational Impact**: Partner organizations will benefit from strengthened capacity, new methodologies, and expanded European networks. The project will result in updated training curricula and sustainable partnership agreements for future collaboration.\n\n**Systemic Impact**: Project outcomes will contribute to European policy discussions around " ++
    fa ++ " and youth development. Dissemination activities will reach an estimated 10,000 stakeholders across partner countries, with toolkit resources made available to organizations throughout Europe.\n\nLong-term sustainability is ensured through follow-up activities, alumni networks, and integration of project outcomes into partners\x27 regular programming.\n")

/-- The fallback template used for any other section_type. -/
def templateGeneric (stLow project_title fa aud : String) : String :=
  pyStrip ("\nThis section focuses on " ++ stLow ++ " aspects of " ++ project_title ++
    ". The project addresses " ++ fa ++ " priorities through innovative approaches that engage " ++ aud ++
    " in meaningful learning experiences.\n\nOur approach combines proven methodologies with innovative elements, ensuring both effectiveness and European added value. Through collaboration with partners across multiple countries, we will create sustainable impact that extends beyond the project timeline.\n\nKey elements include participant-centered design, quality assurance mechanisms, and comprehensive evaluation to ensure project objectives are met and lessons learned are shared with the broader European community.\n")

/-- Template selection content_templates.get(section_type, generic) of
generate_application_section, lowering the interpolated context values
exactly where the f-strings call .lower(). -/
def sectionTemplate (section_type project_title focus_area target_audience : String) :
    String :=
  let fa := toLowerStr focus_area
  let aud := toLowerStr target_audience
  if section_type = "Project Description" then
    templateProjectDescription project_title fa aud
  else if section_type = "Methodology" then
    templateMethodology fa
  else if section_type = "Impact" then
    templateImpact project_title fa
  else
    templateGeneric (toLowerStr section_type) project_title fa aud

/-- Word-limit application of generate_application_section:
if word_limit: words = content.split(); if len(words) > word_limit:
content = " ".join(words[:word_limit]) + "..." .  A word_limit of 0 is
falsy in Python and therefore applies no truncation, like None. -/
def truncateToLimit (content : String) (word_limit : Option Nat) : String :=
  match word_limit with
  | none => content
  | some n =>
    if n ≠ 0 then
      let words := pySplit content
      if words.length > n then
        String.mk (joinSpaceL (words.take n) ++ "...".data)
      else content
    else content

/-- European-dimension compliance test of generate_application_section,
applied to the lowered final content. -/
def europeanCheck (low : String) : Bool :=
  pyContains low "european" || pyContains low "europe"

/-- Target-group compliance test of generate_application_section. -/
def targetGroupCheck (low : String) : Bool :=
  ["participants", "youth", "young people"].any fun w => pyContains low w

/-- Innovation compliance test of generate_application_section. -/
def innovationCheck (low : String) : Bool :=
  ["innovative", "innovation", "new approach"].any fun w => pyContains low w

/-- Embedding of generate_application_section (src/tools.py): template
selection, word-limit truncation, word-count recomputation, compliance
checking on the final text, and the two alternative versions, including the
source quirk that the first alternative's word_count is computed before the
"traditional" -> "conventional" substitution is applied. -/
def generate_application_section (section_type : String)
    (project_context : ProjectContext) (word_limit : Option Nat) : SectionResult :=
  let project_title := project_context.title.getD "Unnamed Project"
  let focus_area := project_context.focus_area.getD "General"
  let target_audience := project_context.target_audience.getD "Young people"
  let content := sectionTemplate section_type project_title focus_area target_audience
  let content := truncateToLimit content word_limit
  let word_count := pyWordCount content
  let low := toLowerStr content
  let compliance_issues :=
    (if europeanCheck low then [] else ["European dimension needs stronger emphasis"]) ++
    (if targetGroupCheck low then [] else ["Target group definition could be clearer"]) ++
    (if innovationCheck low then [] else ["Consider adding more innovation elements"])
  let strengths :=
    (if europeanCheck low then ["Strong European dimension clearly articulated"] else []) ++
    (if targetGroupCheck low then ["Target group clearly defined"] else []) ++
    (if innovationCheck low then ["Innovation elements present"] else [])
  let compliance_status := compliance_issues.isEmpty
  let generated : GeneratedContent :=
    { section_name := section_type,
      content := content,
      word_count := word_count,
      compliance_status := compliance_status,
      compliance_details :=
        { missing_elements := compliance_issues,
          strength_areas := strengths,
          improvement_suggestions :=
            ["Consider adding specific quantifiable outcomes",
             "Include references to relevant EU policies or priorities",
             "Ensure clear link between activities and expected results"] } }
  let impactSuffix :=
    "\n\nThis project directly contributes to European social cohesion and democratic values."
  let alternative_versions : List AlternativeVersion :=
    [{ content := pyReplace (pyReplace content "innovative" "cutting-edge")
         "traditional" "conventional",
       focus := "technical",
       word_count := pyWordCount (pyReplace content "innovative" "cutting-edge") },
     { content := content ++ impactSuffix,
       focus := "impact-focused",
       word_count := pyWordCount (content ++ impactSuffix) }]
  { success := true,
    generated_content := some generated,
    alternative_versions := alternative_versions,
    error := none }

/-
Dependency-context and orchestrator model (src/dependencies.py, src/agent.py).
OpenHorizonDependencies lazily creates a partner HTTP client
(_partner_api_client); cleanup() closes it and resets the field to None.
The Supabase client exposes no close operation in this codebase, so the
partner HTTP client is the one releasable external handle; the state tracks
it together with the number of aclose() calls actually issued. -/

/-- State of an OpenHorizonDependencies context: the lazily-created partner
HTTP client handle and the number of close operations performed on it. -/
structure DepsState where
  partner_api_client : Option Unit
  close_count : Nat
deriving DecidableEq, Repr

/-- A freshly constructed dependency context: no client created yet. -/
def freshDeps : DepsState := { partner_api_client := none, close_count := 0 }

/-- Embedding of OpenHorizonDependencies.cleanup: if the partner client was
created, await aclose() and reset the field to None; otherwise do nothing. -/
def DepsState.cleanup (s : DepsState) : DepsState :=
  match s.partner_api_client with
  | some _ => { partner_api_client := none, close_count := s.close_count + 1 }
  | none => s

/-- Embedding of the lazy partner_api_client property: create the client on
first access, reuse it afterwards. -/
def DepsState.acquireClient (s : DepsState) : DepsState :=
  match s.partner_api_client with
  | some _ => s
  | none => { s with partner_api_client := some () }

/-- The try/finally skeleton shared by the three orchestrator entry points
of src/agent.py: run the enclosed body (whose result may be a normal value
or a converted exception), then unconditionally clean up the context. -/
def runWithCleanup {α : Type} (body : DepsState → α × DepsState)
    (s0 : DepsState) : α × DepsState :=
  let r := body s0
  (r.1, r.2.cleanup)

/-- Request model BrainstormRequest (src/models.py). -/
structure BrainstormRequest where
  initial_concept : String
  focus_preference : Option ErasmusFocusArea := none
  organization_context : String := "Swedish NGO"
  session_id : Option String := none
deriving DecidableEq, Repr

/-- Response model BrainstormResponse (src/models.py). -/
structure BrainstormResponse where
  success : Bool
  project_concepts : List ProjectConcept
  next_steps : List String
  error : Option String
deriving DecidableEq, Repr

/-- Embedding of run_brainstorming_session (src/agent.py).  The language
model turn is an external call, represented by its outcome agent_turn;
when it returns normally the tool function is invoked directly and the
typed response is built from its result, except that project_concepts is
the literal empty list from the source (the "Would parse from
tool_result" placeholder); when the turn raises, the exception handler
builds the failure response.  Cleanup runs on both paths. -/
def run_brainstorming_session (agent_turn : Except String Unit)
    (request : BrainstormRequest) (s0 : DepsState) :
    BrainstormResponse × DepsState :=
  runWithCleanup (fun s =>
    match agent_turn with
    | .ok _ =>
      let tool_result := brainstorm_project_ideas request.initial_concept
        (request.focus_preference.map ErasmusFocusArea.value)
        request.organization_context
      ({ success := tool_result.success,
         project_concepts := [],
         next_steps := tool_result.next_steps,
         error := tool_result.error }, s)
    | .error e =>
      ({ success := false,
         project_concepts := [],
         next_steps := [],
         error := some ("Brainstorming session failed: " ++ e) }, s)) s0

/-- Truncation in the over-limit case: the result has exactly word_limit
whitespace tokens (the appended "..." merges into the last token) and ends
with the literal marker. -/
theorem truncate_count (content : String) (n : Nat) (h1 : 1 ≤ n)
    (hgt : n < pyWordCount content) :
    pyWordCount (truncateToLimit content (some n)) = n ∧
    ∃ pre : List Char, (truncateToLimit content (some n)).data = pre ++ "...".data := by
  have hn0 : n ≠ 0 := by omega
  have hlen : (pySplit content).length > n := hgt
  have hres : truncateToLimit content (some n) =
      String.mk (joinSpaceL ((pySplit content).take n) ++ "...".data) := by
    simp only [truncateToLimit]
    rw [if_pos hn0, if_pos hlen]
  rw [hres]
  constructor
  · rw [pyWordCount_eq_wc]
    have hws : ∀ w ∈ (pySplit content).take n, w ≠ [] ∧ ∀ c ∈ w, isWS c = false := by
      intro w hw
      exact splitAux_words content.data [] (by simp) w (List.mem_of_mem_take hw)
    have hne : (pySplit content).take n ≠ [] := by
      have : ((pySplit content).take n).length = n := by
        rw [List.length_take]
        omega
      intro hnil
      rw [hnil] at this
      simp at this
      omega
    have hdots : ∀ c ∈ "...".data, isWS c = false := by decide
    have := wcAux_join ((pySplit content).take n) "...".data hne hws hdots
    rw [this, List.length_take]
    omega
  · exact ⟨joinSpaceL ((pySplit content).take n), rfl⟩

/-- Truncation in the at-or-under-limit case: the content is unchanged. -/
theorem truncate_noop (content : String) (n : Nat)
    (hle : ¬ n < pyWordCount content) :
    truncateToLimit content (some n) = content := by
  simp only [truncateToLimit]
  by_cases hn0 : n ≠ 0
  · rw [if_pos hn0, if_neg]
    exact fun hcon => hle hcon
  · rw [if_neg hn0]

/-- C1 (counterexample): at section_type "Project Description" with the
default context and word_limit = 50, the template exceeds 50 tokens and the
returned content carries exactly 50 whitespace tokens, not 51: the "..."
marker is appended without a separator and merges into the 50th token. -/
theorem claim_C1_counterexample :
    50 < pyWordCount (sectionTemplate "Project Description" "Unnamed Project"
      "General" "Young people") ∧
    ((generate_application_section "Project Description" {} (some 50)).generated_content.map
      fun g => g.word_count) = some 50 ∧
    ((generate_application_section "Project Description" {} (some 50)).generated_content.map
      fun g => pyWordCount g.content) ≠ some 51 := by
  refine ⟨by decide, by decide, ?_⟩
  intro hcon
  have h50 : ((generate_application_section "Project Description" {} (some 50)).generated_content.map
      fun g => pyWordCount g.content) = some 50 := by decide
  rw [h50] at hcon
  simp at hcon

/-- C1 (amended): for every section type, context and word_limit N >= 1:
when the selected template's whitespace-token count exceeds N, the returned
content ends with the literal "..." marker and its whitespace-token count
(and the reported word_count) is exactly N, the marker having merged into
the final token; when the template's token count is at or under N, the
content is returned unmodified. -/
theorem claim_C1_truncation (section_type : String) (ctx : ProjectContext)
    (n : Nat) (h1 : 1 ≤ n) :
    let content0 := sectionTemplate section_type (ctx.title.getD "Unnamed Project")
      (ctx.focus_area.getD "General") (ctx.target_audience.getD "Young people")
    let r := generate_application_section section_type ctx (some n)
    if n < pyWordCount content0 then
      (r.generated_content.map fun g => pyWordCount g.content) = some n ∧
      (r.generated_content.map fun g => g.word_count) = some n ∧
      (r.generated_content.map fun g => g.content.data) =
        some (joinSpaceL ((pySplit content0).take n) ++ "...".data)
    else
      (r.generated_content.map fun g => g.content) = some content0 := by
  intro content0 r
  have hgen : r.generated_content.map (fun g => g.content) =
      some (truncateToLimit content0 (some n)) := rfl
  by_cases hgt : n < pyWordCount content0
  · rw [if_pos hgt]
    rcases truncate_count content0 n h1 hgt with ⟨hcount, _⟩
    have hn0 : n ≠ 0 := by omega
    have hlen : (pySplit content0).length > n := hgt
    have hres : truncateToLimit content0 (some n) =
        String.mk (joinSpaceL ((pySplit content0).take n) ++ "...".data) := by
      simp only [truncateToLimit]
      rw [if_pos hn0, if_pos hlen]
    refine ⟨?_, ?_, ?_⟩
    · show some (pyWordCount (truncateToLimit content0 (some n))) = some n
      rw [hcount]
    · show some (pyWordCount (truncateToLimit content0 (some n))) = some n
      rw [hcount]
    · show some ((truncateToLimit content0 (some n)).data) = _
      rw [hres]
  · rw [if_neg hgt]
    show some (truncateToLimit content0 (some n)) = some content0
    rw [truncate_noop content0 n hgt]

/-- C1 (witness): the amended truncation theorem instantiated at
section_type "Project Description", the empty context and word_limit 50. -/
theorem claim_C1_witness :
    1 ≤ 50 ∧
    (let content0 := sectionTemplate "Project Description"
      ((ProjectContext.mk none none none).title.getD "Unnamed Project")
      ((ProjectContext.mk none none none).focus_area.getD "General")
      ((ProjectContext.mk none none none).target_audience.getD "Young people")
     let r := generate_application_section "Project Description"
      (ProjectContext.mk none none none) (some 50)
     if 50 < pyWordCount content0 then
       (r.generated_content.map fun g => pyWordCount g.content) = some 50 ∧
       (r.generated_content.map fun g => g.word_count) = some 50 ∧
       (r.generated_content.map fun g => g.content.data) =
         some (joinSpaceL ((pySplit content0).take 50) ++ "...".data)
     else
       (r.generated_content.map fun g => g.content) = some content0) :=
  ⟨by decide, claim_C1_truncation "Project Description"
    (ProjectContext.mk none none none) 50 (by decide)⟩

/-- C2 (evaluation at the failing input): calling the partner matcher with
project_focus = "Digital Skills" and no filters does not return a
successful result: the Partner model requires an id field that none of the
four mock candidate dicts supplies, so the very first pydantic construction
raises ValidationError and the call falls into its failure branch,
returning success = false with a non-null error and an empty partner list
instead of the Digital Youth Foundation entry with score 10. -/
theorem claim_C2_code_bug_eval :
    (discover_erasmus_partners "Digital Skills" none none).success = false ∧
    (discover_erasmus_partners "Digital Skills" none none).potential_partners = [] ∧
    (discover_erasmus_partners "Digital Skills" none none).error.isSome = true ∧
    (mock_partners.map fun d => d.id) = [none, none, none, none] := by
  refine ⟨by decide, by decide, by decide, by decide⟩

/-- C3 (counterexample): an exact focus_preference match alone does not
suffice for the green family: with initial_concept = "x" (no keyword) and
focus_preference = "Green Transition", no Green Transition concept is
emitted; the output is just the default Participation concept. -/
theorem claim_C3_counterexample :
    ((brainstorm_project_ideas "x" (some "Green Transition") "Swedish NGO").project_concepts.any
      fun c => c.focus_area == ErasmusFocusArea.GREEN_TRANSITION) = false ∧
    (brainstorm_project_ideas "x" (some "Green Transition") "Swedish NGO").project_concepts =
      [default_concept "x"] := by
  refine ⟨by decide, by decide⟩

/-- C3 (amended): each family's fixed concept (scores 8, 9, 7) is emitted
exactly when that family's trigger holds; only the digital family's trigger
consults focus_preference (exact match with "Digital Transformation"),
while the green and inclusion families trigger solely on case-insensitive
keyword occurrence in initial_concept. -/
theorem claim_C3_family_triggers (ic : String) (fp : Option String) (oc : String) :
    ((brainstorm_project_ideas ic fp oc).project_concepts.any fun c =>
      c.focus_area == ErasmusFocusArea.DIGITAL_TRANSFORMATION && c.feasibility_score == 8) =
      digitalCond ic fp ∧
    ((brainstorm_project_ideas ic fp oc).project_concepts.any fun c =>
      c.focus_area == ErasmusFocusArea.GREEN_TRANSITION && c.feasibility_score == 9) =
      greenCond ic ∧
    ((brainstorm_project_ideas ic fp oc).project_concepts.any fun c =>
      c.focus_area == ErasmusFocusArea.INCLUSION_DIVERSITY && c.feasibility_score == 7) =
      inclusionCond ic := by
  cases hd : digitalCond ic fp <;> cases hg : greenCond ic <;>
    cases hi : inclusionCond ic <;>
      simp [brainstorm_project_ideas, default_concept, hd, hg, hi]

/-- C4 (counterexample): running the brainstorming orchestrator at the
claimed inputs (agent turn returning normally) produces a typed
BrainstormResponse whose project_concepts list is the hardcoded empty
placeholder, so the response payload contains no concept at all, although
the call reports success. -/
theorem claim_C4_counterexample :
    (run_brainstorming_session (Except.ok ())
      { initial_concept := "teach young people programming skills",
        focus_preference := some ErasmusFocusArea.DIGITAL_TRANSFORMATION,
        organization_context := "Swedish NGO" } freshDeps).1.success = true ∧
    (run_brainstorming_session (Except.ok ())
      { initial_concept := "teach young people programming skills",
        focus_preference := some ErasmusFocusArea.DIGITAL_TRANSFORMATION,
        organization_context := "Swedish NGO" } freshDeps).1.project_concepts = [] := by
  refine ⟨by decide, by decide⟩

/-- C4 (amended): at the claimed inputs, the underlying tool result's
project_concepts payload does contain a concept with focus area "Digital
Transformation" and feasibility score 8 (and the tool reports success),
but the orchestrator's typed BrainstormResponse carries the literal empty
project_concepts placeholder rather than the tool payload. -/
theorem claim_C4_payload_levels :
    ((brainstorm_project_ideas "teach young people programming skills"
      (some "Digital Transformation") "Swedish NGO").project_concepts.any fun c =>
        c.focus_area == ErasmusFocusArea.DIGITAL_TRANSFORMATION &&
        c.feasibility_score == 8) = true ∧
    (brainstorm_project_ideas "teach young people programming skills"
      (some "Digital Transformation") "Swedish NGO").success = true ∧
    (run_brainstorming_session (Except.ok ())
      { initial_concept := "teach young people programming skills",
        focus_preference := some ErasmusFocusArea.DIGITAL_TRANSFORMATION,
        organization_context := "Swedish NGO" } freshDeps).1.project_concepts = [] := by
  refine ⟨by decide, by decide, by decide⟩

/-- Replacing "traditional" by "conventional" (both nonempty and free of
whitespace) does not change a string's whitespace-token count. -/
theorem pyWordCount_replace_traditional (s : String) :
    pyWordCount (pyReplace s "traditional" "conventional") = pyWordCount s := by
  rw [pyWordCount_eq_wc, pyWordCount_eq_wc]
  exact wcAux_replace "traditional".data "conventional".data (by decide) (by decide)
    (by decide) (by decide) s.data false

/-- C5: for every request to each of the three tool capabilities, the
structured result has error = null exactly when success is true, and on
failure the payload fields are empty/default. -/
theorem claim_C5_success_error_exclusivity (ic : String) (fp : Option String)
    (oc : String) (pf : String) (rc : Option (List String))
    (ea : Option (List String)) (st : String) (ctx : ProjectContext)
    (wl : Option Nat) :
    (((brainstorm_project_ideas ic fp oc).error.isNone ==
        (brainstorm_project_ideas ic fp oc).success) &&
      ((brainstorm_project_ideas ic fp oc).success ||
        ((brainstorm_project_ideas ic fp oc).project_concepts.isEmpty &&
         (brainstorm_project_ideas ic fp oc).next_steps.isEmpty))) = true ∧
    (((discover_erasmus_partners pf rc ea).error.isNone ==
        (discover_erasmus_partners pf rc ea).success) &&
      ((discover_erasmus_partners pf rc ea).success ||
        ((discover_erasmus_partners pf rc ea).potential_partners.isEmpty &&
         ((discover_erasmus_partners pf rc ea).search_metadata.total_found == 0) &&
         (discover_erasmus_partners pf rc ea).search_metadata.countries_covered.isEmpty))) = true ∧
    (((generate_application_section st ctx wl).error.isNone ==
        (generate_application_section st ctx wl).success) &&
      ((generate_application_section st ctx wl).success ||
        ((generate_application_section st ctx wl).generated_content.isNone &&
         (generate_application_section st ctx wl).alternative_versions.isEmpty))) = true := by
  refine ⟨?_, ?_, ?_⟩
  · simp [brainstorm_project_ideas]
  · cases h : mock_partners.foldlM (partnerStep pf rc ea) [] <;>
      simp [discover_erasmus_partners, h]
  · simp [generate_application_section]

/-- C6: in every section-generation result, the word_count of the primary
generated content and of each alternative version equals the
whitespace-token count of that item's own content string — for the first
alternative because the "traditional" to "conventional" substitution that
its stored count omits cannot change the token count. -/
theorem claim_C6_word_count_invariant (st : String) (ctx : ProjectContext)
    (wl : Option Nat) :
    ((generate_application_section st ctx wl).generated_content.all
      fun g => g.word_count == pyWordCount g.content) = true ∧
    ((generate_application_section st ctx wl).alternative_versions.all
      fun alt => alt.word_count == pyWordCount alt.content) = true := by
  constructor
  · simp [generate_application_section, Option.all]
  · simp only [generate_application_section, List.all_cons, List.all_nil,
      Bool.and_true]
    rw [pyWordCount_replace_traditional]
    simp

/-- C7: in every section-generation result, compliance_status equals the
emptiness of missing_elements, which in turn holds exactly when the final
(possibly truncated) lowered text passes all three keyword tests; each
failed test contributes exactly one missing-element entry and each passed
test exactly one strength entry. -/
theorem claim_C7_compliance (st : String) (ctx : ProjectContext) (wl : Option Nat) :
    ((generate_application_section st ctx wl).generated_content.all fun g =>
      (g.compliance_status == g.compliance_details.missing_elements.isEmpty) &&
      (g.compliance_status ==
        (europeanCheck (toLowerStr g.content) &&
         targetGroupCheck (toLowerStr g.content) &&
         innovationCheck (toLowerStr g.content))) &&
      (g.compliance_details.missing_elements.length ==
        ((if europeanCheck (toLowerStr g.content) then 0 else 1) +
         (if targetGroupCheck (toLowerStr g.content) then 0 else 1) +
         (if innovationCheck (toLowerStr g.content) then 0 else 1))) &&
      (g.compliance_details.strength_areas.length ==
        ((if europeanCheck (toLowerStr g.content) then 1 else 0) +
         (if targetGroupCheck (toLowerStr g.content) then 1 else 0) +
         (if innovationCheck (toLowerStr g.content) then 1 else 0)))) = true := by
  simp only [generate_application_section, Option.all]
  cases he : europeanCheck (toLowerStr (truncateToLimit
      (sectionTemplate st (ctx.title.getD "Unnamed Project")
        (ctx.focus_area.getD "General") (ctx.target_audience.getD "Young people")) wl)) <;>
    cases ht : targetGroupCheck (toLowerStr (truncateToLimit
      (sectionTemplate st (ctx.title.getD "Unnamed Project")
        (ctx.focus_area.getD "General") (ctx.target_audience.getD "Young people")) wl)) <;>
      cases hi : innovationCheck (toLowerStr (truncateToLimit
        (sectionTemplate st (ctx.title.getD "Unnamed Project")
          (ctx.focus_area.getD "General") (ctx.target_audience.getD "Young people")) wl)) <;>
        simp [he, ht, hi]

/-- C8: the orchestrator skeleton releases the context's releasable
external handle exactly once by call completion, whether the enclosed
operation (language-model turn plus tool call) returns normally or throws:
cleanup runs once on every path, closes the partner HTTP client exactly
once when the operation created it and not at all otherwise, and leaves
the handle field cleared; in particular the three concrete orchestrator
paths of run_brainstorming_session end with a released context. -/
theorem claim_C8_cleanup_once (body : DepsState → Except String Unit × DepsState)
    (s0 : DepsState) :
    ((runWithCleanup body s0).2 = ((body s0).2).cleanup ∧
     (runWithCleanup body s0).2.partner_api_client = none ∧
     (runWithCleanup body s0).2.close_count =
       (body s0).2.close_count +
         (if (body s0).2.partner_api_client.isSome then 1 else 0)) ∧
    (∀ (turn : Except String Unit) (req : BrainstormRequest),
      (run_brainstorming_session turn req freshDeps).2.partner_api_client = none ∧
      (run_brainstorming_session turn req freshDeps).2.close_count = 0) := by
  constructor
  · refine ⟨rfl, ?_, ?_⟩ <;>
      · cases h : (body s0).2.partner_api_client <;>
          simp [runWithCleanup, DepsState.cleanup, h]
  · intro turn req
    cases turn <;>
      simp [run_brainstorming_session, runWithCleanup, DepsState.cleanup, freshDeps]

/-- C9: concept generation always returns at least one concept, and when no
keyword family matches it returns exactly the single default concept, whose
focus area is Participation and whose feasibility score is 6. -/
theorem claim_C9_default_concept (ic : String) (fp : Option String) (oc : String) :
    1 ≤ (brainstorm_project_ideas ic fp oc).project_concepts.length ∧
    (digitalCond ic fp = false → greenCond ic = false → inclusionCond ic = false →
      (brainstorm_project_ideas ic fp oc).project_concepts = [default_concept ic]) ∧
    (default_concept ic).focus_area = ErasmusFocusArea.PARTICIPATION ∧
    (default_concept ic).feasibility_score = 6 := by
  refine ⟨?_, ?_, rfl, rfl⟩
  · cases hd : digitalCond ic fp <;> cases hg : greenCond ic <;>
      cases hi : inclusionCond ic <;>
        simp [brainstorm_project_ideas, hd, hg, hi]
  · intro hd hg hi
    simp [brainstorm_project_ideas, hd, hg, hi]

/-- C9 (witness): the no-match case instantiated at initial_concept
"hello", which triggers no keyword family. -/
theorem claim_C9_witness :
    (digitalCond "hello" none = false ∧ greenCond "hello" = false ∧
      inclusionCond "hello" = false) ∧
    (brainstorm_project_ideas "hello" none "General NGO").project_concepts =
      [default_concept "hello"] :=
  ⟨⟨by decide, by decide, by decide⟩,
    (claim_C9_default_concept "hello" none "General NGO").2.1
      (by decide) (by decide) (by decide)⟩

/-- C10: DependencyContext cleanup is idempotent: one cleanup clears the
partner HTTP-client handle, a second cleanup on the same context is a
no-op, and the underlying close is invoked at most once per acquired
client. -/
theorem claim_C10_cleanup_idempotent (s : DepsState) :
    s.cleanup.cleanup = s.cleanup ∧
    s.cleanup.partner_api_client = none ∧
    s.cleanup.cleanup.close_count = s.cleanup.close_count ∧
    s.cleanup.close_count ≤ s.close_count + 1 := by
  cases h : s.partner_api_client <;> simp [DepsState.cleanup, h]
